import Mathlib

/-
Verification development for the EHR RAG chatbot repository.

Shallow embedding of the Python sources:
  embedding_pipeline.py  (FHIRDocumentProcessor, FHIREmbeddingPipeline)
  epic_auth.py           (EpicAuthClient.get_access_token)
  epic_fhir_client.py    (EpicFHIRClient._make_request, _fetch_with_pagination)

Python dictionaries and JSON-like values are modelled by the inductive
type PyVal; `dict.get(key, default)` on a top-level dict is dictGet and on
an arbitrary value is PyVal.get (raising AttributeError on non-dicts, as
Python does); list indexing `[0]` is PyVal.index0 (IndexError on an empty
list, TypeError otherwise).  Fallible Python code is modelled with Except.
-/

deriving instance DecidableEq for Except

namespace EhrRag

/-- Python exceptions and library errors that the embedded code can raise. -/
inductive PyErr where
  | indexError
  | typeError
  | attributeError
  | nameError
  | valueError
  | duplicateId
  | httpError (status : Nat)
  | requestError
deriving Repr, DecidableEq

/-- JSON-like Python values: strings, integers, lists and dicts. -/
inductive PyVal where
  | vstr (s : String)
  | vint (n : Int)
  | vlist (l : List PyVal)
  | vdict (d : List (String × PyVal))
deriving Repr

/-- A Python dict with string keys, as used for FHIR resources. -/
abbrev PyDict := List (String × PyVal)

/-- Python `d.get(k, default)` on a value statically known to be a dict. -/
def dictGet (d : PyDict) (k : String) (dflt : PyVal) : PyVal :=
  match d.find? (fun p => p.1 == k) with
  | some p => p.2
  | none => dflt

/-- Python `v.get(k, default)`: AttributeError when `v` is not a dict. -/
def PyVal.get (v : PyVal) (k : String) (dflt : PyVal) : Except PyErr PyVal :=
  match v with
  | .vdict d => .ok (dictGet d k dflt)
  | _ => .error .attributeError

/-- Python `v[0]`: IndexError on an empty list, TypeError on a non-list. -/
def PyVal.index0 : PyVal → Except PyErr PyVal
  | .vlist [] => .error .indexError
  | .vlist (x :: _) => .ok x
  | _ => .error .typeError

mutual
/-- Python str() conversion as used inside f-strings.  Exact for strings
and integers (the only cases the theorems exercise); lists and dicts are
rendered element-wise without the quote marks Python repr would add. -/
def pyStr : PyVal → String
  | .vstr s => s
  | .vint n => toString n
  | .vlist l => "[" ++ pyStrList l ++ "]"
  | .vdict d => "\x7b" ++ pyStrDict d ++ "\x7d"

def pyStrList : List PyVal → String
  | [] => ""
  | [x] => pyStr x
  | x :: xs => pyStr x ++ ", " ++ pyStrList xs

def pyStrDict : List (String × PyVal) → String
  | [] => ""
  | [(k, v)] => k ++ ": " ++ pyStr v
  | (k, v) :: xs => k ++ ": " ++ pyStr v ++ ", " ++ pyStrDict xs
end

/-- Python truthiness of a value. -/
def pyTruthy : PyVal → Bool
  | .vstr s => !(s == "")
  | .vint n => !(n == 0)
  | .vlist l => !l.isEmpty
  | .vdict d => !d.isEmpty

/-! ## FHIRDocumentProcessor (embedding_pipeline.py lines 24-75) -/

/-- FHIRDocumentProcessor.process_patient: renders name, gender and birth
date with "Unknown" defaults; the name is read as `name[0].text`. -/
def process_patient (patient : PyDict) : Except PyErr String := do
  let nameEl ← (dictGet patient "name" (.vlist [.vdict []])).index0
  let name ← nameEl.get "text" (.vstr "Unknown")
  let gender := dictGet patient "gender" (.vstr "Unknown")
  let birth_date := dictGet patient "birthDate" (.vstr "Unknown")
  return "Patient: " ++ pyStr name ++ "\nGender: " ++ pyStr gender
    ++ " \nBirth Date: " ++ pyStr birth_date

/-- FHIRDocumentProcessor.process_conditions.  The unused local `code`
is still evaluated first, as in the source. -/
def process_conditions (condition : PyDict) : Except PyErr String := do
  let codeField := dictGet condition "code" (.vdict [])
  let _code ← codeField.get "text" (.vstr "Unknown Condition")
  let codingList ← codeField.get "coding" (.vlist [.vdict []])
  let coding ← codingList.index0
  let display ← coding.get "display" (.vstr "Unknown Condition")
  let onset := dictGet condition "onsetDateTime" (.vstr "Unknown Onset Date")
  let clinical_status ←
    (dictGet condition "clinicalStatus" (.vdict [])).get "text" (.vstr "Unknown Status")
  return "Condition: " ++ pyStr display ++ "\nStatus: " ++ pyStr clinical_status
    ++ "\nOnset Date: " ++ pyStr onset ++ "\n"

/-- FHIRDocumentProcessor.process_observation.  value_text is the stripped
quantity rendering when both value and unit are truthy, otherwise the raw
valueString (default "No value"). -/
def process_observation (observation : PyDict) : Except PyErr String := do
  let codeField := dictGet observation "code" (.vdict [])
  let _code ← codeField.get "text" (.vstr "Unknown Observation")
  let codingList ← codeField.get "coding" (.vlist [.vdict []])
  let coding ← codingList.index0
  let display ← coding.get "display" (.vstr "Unknown Observation")
  let vq := dictGet observation "valueQuantity" (.vdict [])
  let value ← vq.get "value" (.vstr "Unknown Value")
  let unit ← vq.get "unit" (.vstr "")
  let value_text :=
    if pyTruthy value && pyTruthy unit then (pyStr value ++ " " ++ pyStr unit).trim
    else pyStr (dictGet observation "valueString" (.vstr "No value"))
  let effective_date := dictGet observation "effectiveDateTime" (.vstr "Unknown Date")
  return "Observation: " ++ pyStr display ++ "\nValue: " ++ value_text
    ++ "\nDate: " ++ pyStr effective_date

example : process_patient [] =
    .ok "Patient: Unknown\nGender: Unknown \nBirth Date: Unknown" := by rfl

example : process_patient [("name", .vlist [])] = .error .indexError := by rfl

example : process_observation
    [("valueQuantity", .vdict [("value", .vint 5)]), ("valueString", .vstr "five")] =
    .ok "Observation: Unknown Observation\nValue: five\nDate: Unknown Date" := by rfl

/-! ## FHIREmbeddingPipeline.index_patient_data (embedding_pipeline.py lines 115-220) -/

/-- Modelled from the spec: `index_patient_data` calls
`self.processor.process_medication(medication)` but FHIRDocumentProcessor
defines no such method anywhere in the repository sources.  Per spec 4.4
each medication maps deterministically and totally to one text unit,
preferring the human-readable coded display, falling back to the raw text
field, falling back to a fixed placeholder. -/
def process_medication (medication : PyDict) : String :=
  let cc := dictGet medication "medicationCodeableConcept" (.vdict [])
  let fromText :=
    match cc with
    | .vdict d =>
      (match dictGet d "text" (.vstr "") with
       | .vstr s => if s == "" then "Unknown Medication" else s
       | v => pyStr v)
    | _ => "Unknown Medication"
  let coding0 :=
    match cc with
    | .vdict d =>
      (match dictGet d "coding" (.vlist []) with
       | .vlist (x :: _) => x
       | _ => PyVal.vdict [])
    | _ => PyVal.vdict []
  let display :=
    match coding0 with
    | .vdict c =>
      (match dictGet c "display" (.vstr "") with
       | .vstr s => if s == "" then fromText else s
       | v => pyStr v)
    | _ => fromText
  "Medication: " ++ display

/-- The argument of index_patient_data: the dictionary assembled by
EpicFHIRClient.get_all_patient_data. -/
structure PatientData where
  patient_id : String
  patient : PyDict
  conditions : List PyDict
  medications : List PyDict
  observations : List PyDict

/-- Metadata records handed to the vector store: string key-value pairs. -/
abbrev Meta := List (String × String)

/-- Lines 131-200 of embedding_pipeline.py: accumulation of the documents,
metadatas and ids lists.  The timestamp parameter `ts` stands for the
datetime.utcnow()/datetime.now() strings taken during the run.  The source
appends the medication metadata and id OUTSIDE the medication loop (the
two appends are dedented), so only the last medication contributes them,
and with an empty medication list the loop variable `medication` is unbound
and Python raises NameError; both behaviours are reproduced here. -/
def build_lists (pd : PatientData) (ts : String) :
    Except PyErr (List String × List Meta × List String) := do
  let patient_text ← process_patient pd.patient
  let documents0 := [patient_text]
  let metadatas0 : List Meta :=
    [[("type", "patient"), ("patient_id", pd.patient_id), ("timestamp", ts)]]
  let ids0 := [pd.patient_id ++ "_patient"]
  -- conditions loop: document, metadata and id appended per condition
  let condTriples ← pd.conditions.enum.mapM (fun p => do
    let condition_text ← process_conditions p.2
    let condition_id := pyStr (dictGet p.2 "id" (.vstr ("condition_" ++ toString p.1)))
    return (condition_text,
      ([("patient_id", pd.patient_id), ("resource_type", "Condition"),
        ("resource_id", condition_id), ("timestamp", ts)] : Meta),
      pd.patient_id ++ "_condition_" ++ condition_id))
  let documents1 := documents0 ++ condTriples.map (fun t => t.1)
  let metadatas1 := metadatas0 ++ condTriples.map (fun t => t.2.1)
  let ids1 := ids0 ++ condTriples.map (fun t => t.2.2)
  -- medications loop: only the document append is inside the loop
  let documents2 := documents1 ++ pd.medications.map process_medication
  -- dedented lines 171-180: reference the loop variables after the loop
  match pd.medications.getLast? with
  | none => throw .nameError
  | some medication =>
    let idx := pd.medications.length - 1
    let med_id := pyStr (dictGet medication "id" (.vstr ("medication_" ++ toString idx)))
    let metadatas2 := metadatas1 ++
      [([("patient_id", pd.patient_id), ("resource_type", "MedicationRequest"),
         ("resource_id", med_id), ("timestamp", ts)] : Meta)]
    let ids2 := ids1 ++ [pd.patient_id ++ "_medication_" ++ med_id]
    -- observations: first 50, document, metadata and id appended per item
    let obs_sample := pd.observations.take 50
    let obsTriples ← obs_sample.enum.mapM (fun p => do
      let obs_text ← process_observation p.2
      let obs_id := pyStr (dictGet p.2 "id" (.vstr ("observation_" ++ toString p.1)))
      return (obs_text,
        ([("patient_id", pd.patient_id), ("resource_type", "Observation"),
          ("resource_id", obs_id), ("timestamp", ts)] : Meta),
        pd.patient_id ++ "_observation_" ++ obs_id))
    let documents3 := documents2 ++ obsTriples.map (fun t => t.1)
    let metadatas3 := metadatas2 ++ obsTriples.map (fun t => t.2.1)
    let ids3 := ids2 ++ obsTriples.map (fun t => t.2.2)
    return (documents3, metadatas3, ids3)

/-- Lines 204-209: the embedding call and the append sit inside the
`if i % 10 == 0` branch that was meant only for progress printing, so an
embedding is produced only for every tenth document.  The embedding
function itself is the external text-in-vector-out service (the source
body of generate_embedding also misspells the client attribute as
`opoenai_client`); it is abstracted as a function parameter. -/
def embeddings_of (embed : String → List Int) (documents : List String) :
    List (List Int) :=
  (documents.enum.filter (fun p => p.1 % 10 == 0)).map (fun p => embed p.2)

/-- One persisted vector-store record. -/
structure VecEntry where
  id : String
  embedding : List Int
  document : String
  metadata : Meta
deriving Repr, DecidableEq

/-- chromadb Collection.add: validates that all four lists have equal
length (ValueError) and that the batch ids are distinct (DuplicateIDError);
an id already present in the collection is skipped with a warning, keeping
the prior entry - add does not replace. -/
def collection_add (store : List VecEntry) (documents : List String)
    (embeddings : List (List Int)) (metadatas : List Meta) (ids : List String) :
    Except PyErr (List VecEntry) :=
  if ids.length = documents.length ∧ ids.length = embeddings.length ∧
      ids.length = metadatas.length then
    if ids.Nodup then
      let batch := (ids.zip (documents.zip (embeddings.zip metadatas))).map
        (fun q => VecEntry.mk q.1 q.2.2.1 q.2.1 q.2.2.2)
      .ok (store ++ batch.filter
        (fun e => !(store.any (fun e2 => e2.id == e.id))))
    else .error .duplicateId
  else .error .valueError

/-- FHIREmbeddingPipeline.index_patient_data: build the three lists,
generate the embeddings, add to the collection, return len(documents). -/
def index_patient_data (embed : String → List Int) (ts : String)
    (store : List VecEntry) (pd : PatientData) :
    Except PyErr (List VecEntry × Nat) := do
  let lists ← build_lists pd ts
  let documents := lists.1
  let embeddings := embeddings_of embed documents
  let store2 ← collection_add store documents embeddings lists.2.1 lists.2.2
  return (store2, documents.length)

/-! ## FHIREmbeddingPipeline.search (embedding_pipeline.py lines 221-243) -/

/-- Equality metadata filter of a chroma `where` clause. -/
def matches_where (w : Option (String × String)) (e : VecEntry) : Bool :=
  match w with
  | none => true
  | some kv =>
    (e.metadata.find? (fun p => p.1 == kv.1)).map (fun p => p.2) == some kv.2

/-- chromadb Collection.query: the where filter restricts the candidate
pool before the nearest-neighbour ranking, then the top n_results are
returned.  The similarity ranking is external to the repository and is
abstracted as the parameter `rank`; theorems assume only that it returns
elements of its candidate pool. -/
def collection_query (rank : List Int → List VecEntry → List VecEntry)
    (store : List VecEntry) (query_embedding : List Int) (n_results : Nat)
    (whereF : Option (String × String)) : List VecEntry :=
  (rank query_embedding (store.filter (matches_where whereF))).take n_results

/-- FHIREmbeddingPipeline.search: embeds the query, builds the where
filter with `if patient_id:` (so None AND the empty string both disable
the filter), and queries the collection. -/
def search (embed : String → List Int)
    (rank : List Int → List VecEntry → List VecEntry) (store : List VecEntry)
    (query : String) (n_results : Nat) (patient_id : Option String) :
    List VecEntry :=
  let query_embedding := embed query
  let where_filter : Option (String × String) :=
    match patient_id with
    | some p => if p == "" then none else some ("patient_id", p)
    | none => none
  collection_query rank store query_embedding n_results where_filter

/-! ## EpicAuthClient.get_access_token (epic_auth.py lines 99-147)

Times are integers in seconds; `timedelta(minutes=5)` is 300.  The cached
branch requires `not force_refresh and self.access_token and
self.token_expiry` (Python truthiness: None and the empty string are
falsy, a datetime is always truthy) and then `now < expiry - 300`.  The
network exchange is abstracted as its outcome `exchange`; the returned
Bool records whether a new exchange was performed. -/

structure AuthState where
  access_token : Option String
  token_expiry : Option Int
deriving Repr, DecidableEq

/-- Decoded JSON of a successful token response; `expires_in` is read with
`token_data.get("expires_in", 3600)`. -/
structure TokenResponse where
  access_token : String
  expires_in : Option Int
deriving Repr, DecidableEq

/-- Whether `self.access_token` is truthy in Python. -/
def tokenTruthy : Option String → Bool
  | some s => !(s == "")
  | none => false

/-- EpicAuthClient.get_access_token. -/
def get_access_token (st : AuthState) (force_refresh : Bool) (now : Int)
    (exchange : Except PyErr TokenResponse) :
    Bool × Except PyErr (String × AuthState) :=
  let cached : Option String :=
    if force_refresh then none
    else if tokenTruthy st.access_token then
      match st.access_token, st.token_expiry with
      | some tok, some expiry => if now < expiry - 300 then some tok else none
      | _, _ => none
    else none
  match cached with
  | some tok => (false, .ok (tok, st))
  | none =>
    match exchange with
    | .ok r =>
      let expiry := now + r.expires_in.getD 3600
      (true, .ok (r.access_token,
        { access_token := some r.access_token, token_expiry := some expiry }))
    | .error e => (true, .error e)

/-! ## EpicFHIRClient (epic_fhir_client.py lines 44-132)

`_make_request` is driven by a script: the remote responses for the
successive attempts of one logical request.  A 429 answer consumes one
script entry, backs off and retries the same request (the recursion of
lines 70-74); any other HTTP error and any transport error propagates
immediately.  The returned Nat counts the attempts.  An empty script means
the behaviour is not determined by the scenario. -/

/-- One remote answer for one attempt: a decoded JSON page, an HTTP error
status, or a transport failure. -/
inductive ReqOutcome (α : Type) where
  | ok (d : α)
  | httpErr (status : Nat)
  | reqErr
deriving Repr, DecidableEq

/-- EpicFHIRClient._make_request over a response script. -/
def make_request {α : Type} : List (ReqOutcome α) → Option (Except PyErr α × Nat)
  | [] => none
  | .ok d :: _ => some (.ok d, 1)
  | .httpErr s :: rest =>
    if s = 429 then (make_request rest).map (fun p => (p.1, p.2 + 1))
    else some (.error (.httpError s), 1)
  | .reqErr :: _ => some (.error .requestError, 1)

/-- One link object of a FHIR bundle; absent keys are None. -/
structure Link where
  relation : Option String
  url : Option String
deriving Repr, DecidableEq

/-- One decoded response page: `entry` list and `link` list. -/
structure PageData (α : Type) where
  entry : List α
  link : List Link
deriving Repr, DecidableEq

/-- Lines 124-131: scan the links for the first with relation "next" and
take its url (which may itself be absent, ending the loop). -/
def find_next (links : List Link) : Option String :=
  match links.find? (fun l => l.relation == some "next") with
  | some l => l.url
  | none => none

/-- The while loop of `_fetch_with_pagination` (lines 107-132), with fuel
for termination.  `transport url first` is the response script for the
request against `url`; `first` tells whether the initial query parameters
(patient and _count=50) were sent, which the source does only when
`page_num == 1`.  The log records (url, parameters sent, attempts) per
logical request.  `none` means the scenario ran out of fuel or script. -/
def fetch_loop {α : Type} (transport : String → Bool → List (ReqOutcome (PageData α))) :
    Nat → String → Bool → List α → List (String × Bool × Nat) →
    Option (Except PyErr (List α) × List (String × Bool × Nat))
  | 0, _, _, _, _ => none
  | fuel + 1, url, first, all_entries, log =>
    match make_request (transport url first) with
    | none => none
    | some (.error e, n) => some (.error e, log ++ [(url, first, n)])
    | some (.ok d, n) =>
      let all_entries2 := all_entries ++ d.entry
      let log2 := log ++ [(url, first, n)]
      match find_next d.link with
      | none => some (.ok all_entries2, log2)
      | some url2 => fetch_loop transport fuel url2 false all_entries2 log2

/-- EpicFHIRClient._fetch_with_pagination: first request against
base_url/resource_type with the query parameters, then follow next
links. -/
def fetch_with_pagination {α : Type}
    (transport : String → Bool → List (ReqOutcome (PageData α))) (fuel : Nat)
    (base_url resource_type : String) :
    Option (Except PyErr (List α) × List (String × Bool × Nat)) :=
  fetch_loop transport fuel (base_url ++ "/" ++ resource_type) true [] []

/-! ## Concrete scenario data -/

/-- A bundle with no medication at all. -/
def bundleNoMeds : PatientData := ⟨"p1", [], [], [], []⟩

def medM1 : PyDict := [("id", .vstr "m1")]

/-- A bundle with exactly one medication and nothing else. -/
def bundleOneMed : PatientData := ⟨"p1", [], [], [medM1], []⟩

/-- A bundle with two medications and nothing else. -/
def bundleTwoMeds : PatientData :=
  ⟨"p1", [], [], [medM1, [("id", .vstr "m2")]], []⟩

/-- The end-to-end scenario bundle: 1 demographic record, 2 conditions,
1 medication, 60 observations. -/
def bundle54 : PatientData :=
  ⟨"p1", [("name", .vlist [.vdict [("text", .vstr "Jane Doe")]])],
   [[("id", .vstr "c1")], [("id", .vstr "c2")]],
   [medM1],
   (List.range 60).map (fun i => [("id", PyVal.vstr ("o" ++ toString i))])⟩

/-- A degenerate embedding service for concrete evaluation. -/
def embed0 : String → List Int := fun _ => []

/-- Split a character list at underscores (structural analogue of
String.splitOn, kept kernel-reducible). -/
def splitUnders : List Char → List (List Char)
  | [] => [[]]
  | c :: rest =>
    let r := splitUnders rest
    if c == Char.ofNat 95 then [] :: r
    else
      match r with
      | [] => [[c]]
      | g :: gs => (c :: g) :: gs

/-- `s` splits as subjectId, underscore, resourceType, underscore,
resourceId: at least three underscore-separated segments, the first being
the subject id. -/
def hasTriForm (pid s : String) : Bool :=
  match splitUnders s.data with
  | a :: _ :: _ :: _ => a == pid.data
  | _ => false

/-! ## Claims about the indexing pipeline -/

/-- Claim C2 (code bug): indexing is not an idempotent upsert.  A bundle
with no medications raises NameError (the dedented lines after the
medication loop read the unbound loop variable) before any store write; a
bundle with one medication builds two documents but only one embedding
(the every-tenth-document bug), so the store add raises the length
ValueError; and the store write is `collection.add`, which keeps the
prior entry for an already-present id instead of replacing it, so
re-indexing would not refresh an entry as the claimed upsert would. -/
theorem index_patient_data_code_bug :
    index_patient_data embed0 "t1" [] bundleNoMeds = .error .nameError ∧
    index_patient_data embed0 "t1" [] bundleOneMed = .error .valueError ∧
    collection_add [VecEntry.mk "p1_medication_m1" [] "old" [("timestamp", "t1")]]
        ["new"] [[]] [[("timestamp", "t2")]] ["p1_medication_m1"] =
      .ok [VecEntry.mk "p1_medication_m1" [] "old" [("timestamp", "t1")]] := by
  refine ⟨by decide, by decide, by decide⟩

/-- Claim C4, counterexample: on the 1 demographic / 2 conditions /
1 medication / 60 observations bundle the first text-unit id is
"p1_patient", which is not of the form subjectId_resourceType_resourceId:
it cannot be written "p1" ++ "_" ++ rt ++ "_" ++ rid for any rt, rid. -/
theorem bundle54_patient_id_form_counterexample :
    (build_lists bundle54 "t").toOption.map (fun L => L.2.2.head?) =
      some (some "p1_patient") ∧
    ¬ ∃ rt rid : String, "p1_patient" = "p1" ++ "_" ++ rt ++ "_" ++ rid := by
  constructor
  · decide
  · rintro ⟨rt, rid, h⟩
    have hc := congrArg (fun s : String => s.data.count (Char.ofNat 95)) h
    simp only [String.data_append, List.count_append] at hc
    have h1 : ("p1_patient".data.count (Char.ofNat 95)) = 1 := by decide
    have h2 : ("p1".data.count (Char.ofNat 95)) = 0 := by decide
    have h3 : ("_".data.count (Char.ofNat 95)) = 1 := by decide
    rw [h1, h2, h3] at hc
    omega

/-- Claim C4, amended: the 1/2/1/60 bundle builds exactly 54 text units
(observations capped to the first 50) with 54 pairwise distinct ids; every
id other than the demographic one has the form
subjectId_resourceType_resourceId, while the demographic unit id is
subjectId_patient with no resource-id segment. -/
theorem bundle54_units_amended :
    (build_lists bundle54 "t").toOption.map (fun L =>
        (L.1.length, L.2.2.length, L.2.2.dedup.length, L.2.2.head?,
         (L.2.2.drop 1).all (fun s => hasTriForm "p1" s))) =
      some (54, 54, 54, some "p1_patient", true) := by
  decide

/-- Claim C5 (code bug): the metadata and id appends for medications sit
outside the medication loop, so with two medications the lists handed to
the store add have lengths 3, 2, 2 instead of being equal, and with zero
medications the function raises NameError on the unbound loop variable. -/
theorem medication_lists_mismatch_code_bug :
    (build_lists bundleTwoMeds "t").toOption.map (fun L =>
        (L.1.length, L.2.1.length, L.2.2.length)) = some (3, 2, 2) ∧
    build_lists bundleNoMeds "t" = .error .nameError := by
  refine ⟨by decide, by decide⟩

/-- Claim C6 (code bug): the embedding call sits inside the
`if i % 10 == 0` progress branch, so only documents at indices 0, 10, 20,
... are embedded: a 2-document bundle yields 1 embedding and a 12-document
list yields 2, not one embedding per document. -/
theorem embeddings_every_tenth_code_bug :
    (build_lists bundleOneMed "t").toOption.map (fun L =>
        (L.1.length, (embeddings_of embed0 L.1).length)) = some (2, 1) ∧
    (embeddings_of embed0 (List.replicate 12 "d")).length = 2 := by
  refine ⟨by decide, by decide⟩

/-! ## Claims about pagination and the retry policy -/

/-- Page 1 of the mocked remote: entries 0-49 and a next link to u2. -/
def page1 : PageData Nat :=
  ⟨List.range 50, [⟨some "next", some "u2"⟩]⟩

/-- Page 2: entries 50-99 and a next link to u3. -/
def page2 : PageData Nat :=
  ⟨(List.range 50).map (fun i => i + 50), [⟨some "next", some "u3"⟩]⟩

/-- Page 3: entries 100-106 and no next link. -/
def page3 : PageData Nat :=
  ⟨(List.range 7).map (fun i => i + 100), [⟨some "self", some "u3"⟩]⟩

/-- The mocked 3-page remote, every request answered first time. -/
def transport3 (url : String) (_ : Bool) : List (ReqOutcome (PageData Nat)) :=
  if url == "base/Observation" then [.ok page1]
  else if url == "u2" then [.ok page2]
  else if url == "u3" then [.ok page3]
  else []

/-- Variant with a zero-entry middle page that still carries a next link. -/
def transport3z (url : String) (_ : Bool) : List (ReqOutcome (PageData Nat)) :=
  if url == "base/Observation" then [.ok page1]
  else if url == "u2" then [.ok ⟨[], [⟨some "next", some "u3"⟩]⟩]
  else if url == "u3" then [.ok page3]
  else []

/-- Variant whose only page has no entries and no next link. -/
def transportEmpty (url : String) (_ : Bool) : List (ReqOutcome (PageData Nat)) :=
  if url == "base/Observation" then [.ok ⟨[], []⟩] else []

/-- Variant of the 3-page remote answering the page-2 request with one
429 before succeeding. -/
def transport429 (url : String) (_ : Bool) : List (ReqOutcome (PageData Nat)) :=
  if url == "base/Observation" then [.ok page1]
  else if url == "u2" then [.httpErr 429, .ok page2]
  else if url == "u3" then [.ok page3]
  else []

/-- Claim C8 (confirmed): on the mocked 50/50/7 remote, fetchAll returns
the 107 entries in page order; only the first request carries the query
parameters, the later ones follow the next links; a zero-entry page with a
next link continues the loop, and a page with no next link (entries or
not) terminates it. -/
theorem pagination_three_pages :
    fetch_with_pagination transport3 10 "base" "Observation" =
      some (.ok (List.range 107),
        [("base/Observation", true, 1), ("u2", false, 1), ("u3", false, 1)]) ∧
    fetch_with_pagination transport3z 10 "base" "Observation" =
      some (.ok (List.range 50 ++ (List.range 7).map (fun i => i + 100)),
        [("base/Observation", true, 1), ("u2", false, 1), ("u3", false, 1)]) ∧
    fetch_with_pagination transportEmpty 10 "base" "Observation" =
      some (.ok [], [("base/Observation", true, 1)]) := by
  refine ⟨by decide, by decide, by decide⟩

/-- Claim C9 (confirmed): a successful response returns at once; a non-429
HTTP error propagates immediately with no retry; a 429 backs off and
retries the same request (one more attempt consuming the rest of the
script); a 429 never surfaces to the caller; and the single-429-on-page-2
scenario yields exactly one retry of page 2 (2 attempts logged) and the
same duplicate-free 107 entries. -/
theorem retry_429_policy :
    (∀ (d : PageData Nat) (rest : List (ReqOutcome (PageData Nat))),
      make_request (.ok d :: rest) = some (.ok d, 1)) ∧
    (∀ (s : Nat) (rest : List (ReqOutcome (PageData Nat))), s ≠ 429 →
      make_request (.httpErr s :: rest) = some (.error (.httpError s), 1)) ∧
    (∀ rest : List (ReqOutcome (PageData Nat)),
      make_request (.httpErr 429 :: rest) =
        (make_request rest).map (fun p => (p.1, p.2 + 1))) ∧
    (∀ (script : List (ReqOutcome (PageData Nat)))
        (r : Except PyErr (PageData Nat)) (n : Nat),
      make_request script = some (r, n) → r ≠ .error (.httpError 429)) ∧
    fetch_with_pagination transport429 10 "base" "Observation" =
      some (.ok (List.range 107),
        [("base/Observation", true, 1), ("u2", false, 2), ("u3", false, 1)]) := by
  refine ⟨fun d rest => rfl, ?_, fun rest => ?_, ?_, by decide⟩
  · intro s rest hs
    simp [make_request, hs]
  · simp [make_request]
  · intro script
    induction script with
    | nil => intro r n h; simp [make_request] at h
    | cons head rest ih =>
      intro r n h
      cases head with
      | ok d =>
        simp only [make_request, Option.some.injEq, Prod.mk.injEq] at h
        rw [← h.1]
        simp
      | httpErr s =>
        by_cases hs : s = 429
        · subst hs
          have hstep : make_request (.httpErr 429 :: rest) =
              (make_request rest).map (fun p => (p.1, p.2 + 1)) := rfl
          rw [hstep] at h
          cases hmr : make_request (α := PageData Nat) rest with
          | none => rw [hmr] at h; simp at h
          | some p =>
            rw [hmr] at h
            simp only [Option.map_some', Option.some.injEq, Prod.mk.injEq] at h
            exact h.1 ▸ ih p.1 p.2 (by rw [hmr])
        · simp only [make_request, if_neg hs, Option.some.injEq, Prod.mk.injEq] at h
          rw [← h.1]
          intro hcontra
          exact hs (by injection hcontra with h2; injection h2)
      | reqErr =>
        simp only [make_request, Option.some.injEq, Prod.mk.injEq] at h
        rw [← h.1]
        intro hcontra
        injection hcontra with h2
        injection h2

/-- Witness for retry_429_policy: a 500 propagates at once and a
successful first answer is not a 429 error. -/
theorem retry_429_policy_witness :
    make_request (α := PageData Nat) [.httpErr 500] =
      some (.error (.httpError 500), 1) ∧
    (Except.ok page1 : Except PyErr (PageData Nat)) ≠
      .error (.httpError 429) :=
  ⟨retry_429_policy.2.1 500 [] (by decide),
   retry_429_policy.2.2.2.1 [.ok page1] (.ok page1) 1 rfl⟩

/-! ## Claims about the token cache -/

/-- Claim C7, counterexample: when the exchange returns the empty string
as access_token at T = 0 with expires_in = 3600, the very next call at
now = 10 (strictly before 3600 - 300) performs a new exchange instead of
returning the cached token, because `self.access_token` is falsy. -/
theorem empty_token_refresh_counterexample :
    get_access_token ⟨none, none⟩ false 0 (.ok ⟨"", some 3600⟩) =
      (true, .ok ("", ⟨some "", some 3600⟩)) ∧
    (get_access_token ⟨some "", some 3600⟩ false 10 (.ok ⟨"tok2", some 3600⟩)).1 =
      true := by
  refine ⟨by decide, by decide⟩

/-- Claim C7, amended: a NON-EMPTY token obtained at time T with
expires_in = E (cached with expiry T + E) is returned without a new
exchange by every forceRefresh=false call at now < T + E - 300; a call at
now ≥ T + E - 300 performs an exchange, and forceRefresh=true always
performs an exchange. -/
theorem token_cache_boundary :
    ∀ (st0 : AuthState) (tok : String) (T E now : Int)
      (exch2 : Except PyErr TokenResponse),
      get_access_token st0 true T (.ok ⟨tok, some E⟩) =
        (true, .ok (tok, ⟨some tok, some (T + E)⟩)) ∧
      (tok ≠ "" → now < T + E - 300 →
        get_access_token ⟨some tok, some (T + E)⟩ false now exch2 =
          (false, .ok (tok, ⟨some tok, some (T + E)⟩))) ∧
      (T + E - 300 ≤ now →
        (get_access_token ⟨some tok, some (T + E)⟩ false now exch2).1 = true) ∧
      (get_access_token ⟨some tok, some (T + E)⟩ true now exch2).1 = true := by
  intro st0 tok T E now exch2
  refine ⟨?_, ?_, ?_, ?_⟩
  · simp [get_access_token]
  · intro hne hlt
    have htr : tokenTruthy (some tok) = true := by
      simp [tokenTruthy, hne]
    simp [get_access_token, htr, hlt]
  · intro hge
    have hnlt : ¬(now < T + E - 300) := by omega
    cases exch2 <;> simp [get_access_token, hnlt]
  · cases exch2 <;> simp [get_access_token]

/-- Witness for token_cache_boundary at T = 0, E = 3600, now = 100. -/
theorem token_cache_boundary_witness :
    get_access_token ⟨none, none⟩ true 0 (.ok ⟨"tokA", some 3600⟩) =
      (true, .ok ("tokA", ⟨some "tokA", some (0 + 3600)⟩)) ∧
    get_access_token ⟨some "tokA", some (0 + 3600)⟩ false 100
        (.ok ⟨"tokB", some 3600⟩) =
      (false, .ok ("tokA", ⟨some "tokA", some (0 + 3600)⟩)) :=
  ⟨(token_cache_boundary ⟨none, none⟩ "tokA" 0 3600 100 (.ok ⟨"tokB", some 3600⟩)).1,
   (token_cache_boundary ⟨none, none⟩ "tokA" 0 3600 100 (.ok ⟨"tokB", some 3600⟩)).2.1
     (by decide) (by decide)⟩

/-! ## Claims about retrieval -/

/-- The identity ranking: a nearest-neighbour ordering that returns its
candidate pool unchanged. -/
def rankId : List Int → List VecEntry → List VecEntry := fun _ l => l

def entryOther : VecEntry := ⟨"d1", [], "doc-other", [("patient_id", "other")]⟩

def entryP1 : VecEntry := ⟨"d2", [], "doc-p1", [("patient_id", "p1")]⟩

/-- Claim C1, counterexample: with the empty string as subject id the
source builds no where filter (`if patient_id:`), so the query returns a
document whose metadata patient_id is "other", not equal to the requested
subject id "". -/
theorem search_empty_subject_counterexample :
    search embed0 rankId [entryOther] "q" 5 (some "") = [entryOther] ∧
    (entryOther.metadata.find? (fun p => p.1 == "patient_id")).map (fun p => p.2) ≠
      some "" := by
  refine ⟨by decide, by decide⟩

/-- Claim C1, amended: for every NON-EMPTY subject id X, every store, every
query and every ranking that returns elements of its candidate pool,
search with patient_id = X returns only entries whose metadata patient_id
equals X. -/
theorem search_subject_filter :
    ∀ (embed : String → List Int)
      (rank : List Int → List VecEntry → List VecEntry) (store : List VecEntry)
      (q : String) (n : Nat) (X : String), X ≠ "" →
      (∀ qe l x, x ∈ rank qe l → x ∈ l) →
      ∀ e ∈ search embed rank store q n (some X),
        (e.metadata.find? (fun p => p.1 == "patient_id")).map (fun p => p.2) =
          some X := by
  intro embed rank store q n X hX hrank e he
  have hX2 : (X == "") = false := by
    rw [beq_eq_false_iff_ne]
    exact hX
  simp only [search, collection_query, hX2, Bool.false_eq_true, if_false] at he
  have h1 : e ∈ rank (embed q)
      (store.filter (matches_where (some ("patient_id", X)))) :=
    List.take_subset n _ he
  have h2 := hrank _ _ _ h1
  rw [List.mem_filter] at h2
  have h3 := h2.2
  simpa [matches_where] using h3

/-- Witness for search_subject_filter on a one-entry store for subject
p1. -/
theorem search_subject_filter_witness :
    (entryP1.metadata.find? (fun p => p.1 == "patient_id")).map (fun p => p.2) =
      some "p1" :=
  search_subject_filter embed0 rankId [entryP1] "q" 5 "p1" (by decide)
    (fun _ _ _ h => h) entryP1 (by decide)

/-! ## Claims about the document builders -/

theorem ok_bind {α β : Type} (a : α) (f : α → Except PyErr β) :
    (Except.ok a >>= f : Except PyErr β) = f a := rfl

/-- Claim C3, counterexample: a patient resource whose name field is
present but an EMPTY list makes process_patient raise IndexError (the
source indexes `[0]` into the list), and likewise an empty coding list
makes process_conditions and process_observation raise. -/
theorem process_empty_sublist_counterexample :
    process_patient [("name", .vlist [])] = .error .indexError ∧
    process_conditions [("code", .vdict [("coding", .vlist [])])] =
      .error .indexError ∧
    process_observation [("code", .vdict [("coding", .vlist [])])] =
      .error .indexError := by
  refine ⟨by decide, by decide, by decide⟩

/-- Claim C3, amended: the builders never raise when optional fields are
ABSENT, and more generally whenever any present name or coding sub-list
is non-empty with a dict first element and any present code,
clinicalStatus or valueQuantity field is a dict; on the all-fields-absent
resource each field renders its configured placeholder. -/
theorem builders_total_on_missing_fields :
    (∀ (patient nd : PyDict) (rest : List PyVal),
      dictGet patient "name" (.vlist [.vdict []]) = .vlist (.vdict nd :: rest) →
      ∃ s, process_patient patient = .ok s) ∧
    (∀ (condition dc d2 : PyDict) (rest : List PyVal) (ds : PyDict),
      dictGet condition "code" (.vdict []) = .vdict dc →
      dictGet dc "coding" (.vlist [.vdict []]) = .vlist (.vdict d2 :: rest) →
      dictGet condition "clinicalStatus" (.vdict []) = .vdict ds →
      ∃ s, process_conditions condition = .ok s) ∧
    (∀ (observation dc d2 : PyDict) (rest : List PyVal) (dv : PyDict),
      dictGet observation "code" (.vdict []) = .vdict dc →
      dictGet dc "coding" (.vlist [.vdict []]) = .vlist (.vdict d2 :: rest) →
      dictGet observation "valueQuantity" (.vdict []) = .vdict dv →
      ∃ s, process_observation observation = .ok s) ∧
    process_patient [] =
      .ok "Patient: Unknown\nGender: Unknown \nBirth Date: Unknown" ∧
    process_conditions [] =
      .ok "Condition: Unknown Condition\nStatus: Unknown Status\nOnset Date: Unknown Onset Date\n" ∧
    process_observation [] =
      .ok "Observation: Unknown Observation\nValue: No value\nDate: Unknown Date" := by
  refine ⟨?_, ?_, ?_, by decide, by decide, by decide⟩
  · intro patient nd rest h
    refine ⟨"Patient: " ++ pyStr (dictGet nd "text" (.vstr "Unknown")) ++
      "\nGender: " ++ pyStr (dictGet patient "gender" (.vstr "Unknown")) ++
      " \nBirth Date: " ++ pyStr (dictGet patient "birthDate" (.vstr "Unknown")), ?_⟩
    simp only [process_patient, h, PyVal.index0, PyVal.get, ok_bind]
    rfl
  · intro condition dc d2 rest ds h1 h2 h3
    refine ⟨"Condition: " ++ pyStr (dictGet d2 "display" (.vstr "Unknown Condition")) ++
      "\nStatus: " ++ pyStr (dictGet ds "text" (.vstr "Unknown Status")) ++
      "\nOnset Date: " ++
      pyStr (dictGet condition "onsetDateTime" (.vstr "Unknown Onset Date")) ++ "\n", ?_⟩
    simp only [process_conditions, h1, h3, PyVal.get, ok_bind]
    rw [h2]
    simp only [PyVal.index0, PyVal.get, ok_bind]
    rfl
  · intro observation dc d2 rest dv h1 h2 h3
    refine ⟨"Observation: " ++
      pyStr (dictGet d2 "display" (.vstr "Unknown Observation")) ++ "\nValue: " ++
      (if pyTruthy (dictGet dv "value" (.vstr "Unknown Value")) &&
          pyTruthy (dictGet dv "unit" (.vstr "")) then
        (pyStr (dictGet dv "value" (.vstr "Unknown Value")) ++ " " ++
          pyStr (dictGet dv "unit" (.vstr ""))).trim
      else pyStr (dictGet observation "valueString" (.vstr "No value"))) ++
      "\nDate: " ++
      pyStr (dictGet observation "effectiveDateTime" (.vstr "Unknown Date")), ?_⟩
    simp only [process_observation, h1, h3, PyVal.get, ok_bind]
    rw [h2]
    simp only [PyVal.index0, PyVal.get, ok_bind]
    rfl

/-- Witness for builders_total_on_missing_fields: each builder succeeds on
a resource with only unrecognized or partial fields. -/
theorem builders_total_witness :
    (∃ s, process_patient [("gender", .vstr "female")] = .ok s) ∧
    (∃ s, process_conditions [("onsetDateTime", .vstr "2020-01-01")] = .ok s) ∧
    (∃ s, process_observation [("effectiveDateTime", .vstr "2020-01-01")] = .ok s) :=
  ⟨builders_total_on_missing_fields.1 [("gender", .vstr "female")] [] [] rfl,
   builders_total_on_missing_fields.2.1 [("onsetDateTime", .vstr "2020-01-01")]
     [] [] [] [] rfl rfl rfl,
   builders_total_on_missing_fields.2.2.1 [("effectiveDateTime", .vstr "2020-01-01")]
     [] [] [] [] rfl rfl rfl⟩

/-! ## Claim about the observation value rendering -/

/-- The value expression of line 62: valueQuantity.value with default
"Unknown Value". -/
def obs_value (observation : PyDict) : Except PyErr PyVal :=
  (dictGet observation "valueQuantity" (.vdict [])).get "value" (.vstr "Unknown Value")

/-- The unit expression of line 63: valueQuantity.unit with default "". -/
def obs_unit (observation : PyDict) : Except PyErr PyVal :=
  (dictGet observation "valueQuantity" (.vdict [])).get "unit" (.vstr "")

/-- The string-value fallback of line 67. -/
def obs_value_string (observation : PyDict) : PyVal :=
  dictGet observation "valueString" (.vstr "No value")

/-- An observation with a quantity value but no unit, plus a string
value. -/
def obsQuantityNoUnit : PyDict :=
  [("valueQuantity", .vdict [("value", .vint 5)]), ("valueString", .vstr "five")]

/-- Claim C10, counterexample: this observation carries the quantity value
5 (present and truthy), yet the rendered text shows the string value
"five" - the digit 5 does not even occur in the output - because the
unit defaults to the falsy "" and `value and unit` fails. -/
theorem observation_quantity_ignored_counterexample :
    (obs_value obsQuantityNoUnit).map pyStr = .ok "5" ∧
    (obs_value obsQuantityNoUnit).map pyTruthy = .ok true ∧
    process_observation obsQuantityNoUnit =
      .ok "Observation: Unknown Observation\nValue: five\nDate: Unknown Date" ∧
    ("Observation: Unknown Observation\nValue: five\nDate: Unknown Date".data.contains
      (Char.ofNat 53)) = false := by
  refine ⟨by decide, by decide, by decide, by decide⟩

/-- Claim C10, amended: the rendered value line is EITHER the
quantity-with-unit rendering OR the string value, never both; the
quantity is picked exactly when the value AND the unit are both present
and truthy (non-zero value, non-empty unit string); otherwise - in
particular when the unit is absent even though a quantity value is
present - the string value (default "No value") is rendered. -/
theorem observation_value_branch :
    ∀ (observation dc d2 : PyDict) (rest : List PyVal) (dv : PyDict),
      dictGet observation "code" (.vdict []) = .vdict dc →
      dictGet dc "coding" (.vlist [.vdict []]) = .vlist (.vdict d2 :: rest) →
      dictGet observation "valueQuantity" (.vdict []) = .vdict dv →
      ∃ (v u : PyVal) (pre post vt : String),
        obs_value observation = .ok v ∧
        obs_unit observation = .ok u ∧
        process_observation observation =
          .ok (pre ++ "\nValue: " ++ vt ++ "\nDate: " ++ post) ∧
        (vt = (pyStr v ++ " " ++ pyStr u).trim ∨
          vt = pyStr (obs_value_string observation)) ∧
        ((pyTruthy v && pyTruthy u) = true →
          vt = (pyStr v ++ " " ++ pyStr u).trim) ∧
        ((pyTruthy v && pyTruthy u) = false →
          vt = pyStr (obs_value_string observation)) := by
  intro observation dc d2 rest dv h1 h2 h3
  refine ⟨dictGet dv "value" (.vstr "Unknown Value"), dictGet dv "unit" (.vstr ""),
    "Observation: " ++ pyStr (dictGet d2 "display" (.vstr "Unknown Observation")),
    pyStr (dictGet observation "effectiveDateTime" (.vstr "Unknown Date")),
    if pyTruthy (dictGet dv "value" (.vstr "Unknown Value")) &&
        pyTruthy (dictGet dv "unit" (.vstr "")) then
      (pyStr (dictGet dv "value" (.vstr "Unknown Value")) ++ " " ++
        pyStr (dictGet dv "unit" (.vstr ""))).trim
    else pyStr (obs_value_string observation),
    ?_, ?_, ?_, ?_, ?_, ?_⟩
  · simp [obs_value, h3, PyVal.get]
  · simp [obs_unit, h3, PyVal.get]
  · simp only [process_observation, h1, h3, PyVal.get, ok_bind]
    rw [h2]
    simp only [PyVal.index0, PyVal.get, ok_bind, obs_value_string]
    rfl
  · by_cases hb : (pyTruthy (dictGet dv "value" (.vstr "Unknown Value")) &&
        pyTruthy (dictGet dv "unit" (.vstr ""))) = true
    · left
      rw [if_pos hb]
    · right
      rw [if_neg hb]
  · intro hb
    rw [if_pos hb]
  · intro hb
    rw [if_neg (by simp [hb])]

/-- An observation with both a quantity value and a unit. -/
def obsFullQuantity : PyDict :=
  [("valueQuantity", .vdict [("value", .vint 5), ("unit", .vstr "mg")])]

/-- Witness for observation_value_branch at a quantity observation. -/
theorem observation_value_branch_witness :
    ∃ (v u : PyVal) (pre post vt : String),
      obs_value obsFullQuantity = .ok v ∧
      obs_unit obsFullQuantity = .ok u ∧
      process_observation obsFullQuantity =
        .ok (pre ++ "\nValue: " ++ vt ++ "\nDate: " ++ post) ∧
      (vt = (pyStr v ++ " " ++ pyStr u).trim ∨
        vt = pyStr (obs_value_string obsFullQuantity)) ∧
      ((pyTruthy v && pyTruthy u) = true →
        vt = (pyStr v ++ " " ++ pyStr u).trim) ∧
      ((pyTruthy v && pyTruthy u) = false →
        vt = pyStr (obs_value_string obsFullQuantity)) :=
  observation_value_branch obsFullQuantity [] [] []
    [("value", .vint 5), ("unit", .vstr "mg")] rfl rfl rfl

end EhrRag
